import Mathlib

/-!
Verification of the NASA OPeNDAP tutorial notebooks.

The repository consists of Jupyter notebooks that log in to NASA Earthdata,
run a shell script that creates the `~/.dodsrc` configuration file, rewrite a
dataset URL to the `dap4://` protocol scheme, open a remote dataset with
pydap, slice arrays, mask fill values, apply a linear unit scaling, and plot.
This file embeds those steps and proves the specification claims about them.
-/

set_option autoImplicit false

namespace NasaTutorials

/-! ### Python string primitives used by the URL-construction cell

The cell is:

    if dataset_url.find("https") == 0 :
        dap4_url=dataset_url.replace("https://","dap4://",1)
    else :
        dap4_url=dataset_url.replace("http://","dap4://",1)

Strings are embedded as `List Char`. -/

/-- `leadsWith pat s` is true when `pat` occurs at the very start of `s`
(Python `s.startswith(pat)`, equivalently `s.find(pat) == 0`). -/
def leadsWith : List Char → List Char → Bool
  | [], _ => true
  | _ :: _, [] => false
  | a :: pa, b :: s => a == b && leadsWith pa s

/-- Index of the first occurrence of `pat` inside `s`, if any
(the occurrence Python `s.find(pat)` reports when non-negative). -/
def findSub (pat : List Char) : List Char → Option Nat
  | [] => if leadsWith pat [] then some 0 else none
  | c :: t => if leadsWith pat (c :: t) then some 0 else (findSub pat t).map (· + 1)

/-- Python `s.find(pat)`: index of the first occurrence, `-1` when absent. -/
def pyFind (s pat : List Char) : Int :=
  match findSub pat s with
  | some n => (n : Int)
  | none => -1

/-- Python `s.replace(old, new, 1)`: replace the first occurrence of `old`
(if any) by `new`, leaving the rest of the string unchanged. -/
def replaceFirst (old new : List Char) : List Char → List Char
  | [] => if leadsWith old [] then new else []
  | c :: t =>
    if leadsWith old (c :: t) then new ++ (c :: t).drop old.length
    else c :: replaceFirst old new t

/-- The URL-construction cell of the pydap notebook: rewrite the protocol
scheme of `dataset_url` to `dap4://`, producing `dap4_url`. -/
def dap4_url (u : List Char) : List Char :=
  if pyFind u ("https".data) = 0 then replaceFirst ("https://".data) ("dap4://".data) u
  else replaceFirst ("http://".data) ("dap4://".data) u

/-- The spec's description of one rewrite branch: the input with only its
first occurrence of `old` replaced by `new`, the remainder unchanged (and
the input returned untouched when `old` does not occur). -/
def replaceFirstOccSpec (s old new : List Char) : List Char :=
  match findSub old s with
  | none => s
  | some i => s.take i ++ new ++ s.drop (i + old.length)

/-! ### Array cells: squeeze, fill-value masking, unit scaling

The notebook works on numpy float arrays after `astype(np.float32)`.  A float
value is embedded as `Option ℚ`: `none` is NaN, `some x` an ordinary number.
2-D arrays are lists of rows; the 3-D SST array is a list of 2-D slices. -/

/-- A numeric array cell: `none` models NaN, `some x` an ordinary value. -/
abbrev SciVal : Type := Option ℚ

/-- Element of a 2-D array at row `i`, column `j` (`none` when out of range). -/
def at2 {α : Type} (g : List (List α)) (i j : Nat) : Option α :=
  match g.get? i with
  | some r => r.get? j
  | none => none

/-- Element of a 3-D array at indices `k`, `i`, `j`. -/
def at3 {α : Type} (a : List (List (List α))) (k i j : Nat) : Option α :=
  match a.get? k with
  | some g => at2 g i j
  | none => none

/-- Total number of elements of a 2-D array. -/
def count2 {α : Type} (g : List (List α)) : Nat := (g.map List.length).sum

/-- Total number of elements of a 3-D array. -/
def count3 {α : Type} (a : List (List (List α))) : Nat := (a.map count2).sum

/-- The 2-D array has `m` rows, each of length `n`. -/
def isShape2 {α : Type} (m n : Nat) (g : List (List α)) : Prop :=
  g.length = m ∧ ∀ r ∈ g, r.length = n

/-- `np.squeeze` on the SST array: the leading (time) axis has length one and
is dropped, returning the single 2-D slice.  (Axes of length other than one
are untouched by `np.squeeze`; the notebook only squeezes shape `(1, m, n)`.) -/
def npSqueeze0 {α : Type} : List (List (List α)) → List (List α)
  | [g] => g
  | _ => []

/-- One cell of the fill-value masking assignment `sst[sst < -32000] = np.nan`:
values strictly below `-32000` become NaN; NaN compares false and stays NaN. -/
def maskElem (v : SciVal) : SciVal :=
  match v with
  | none => none
  | some x => if x < -32000 then none else some x

/-- The masking assignment `sst[sst < -32000] = np.nan` applied elementwise. -/
def maskFillValues (g : List (List SciVal)) : List (List SciVal) :=
  g.map (List.map maskElem)

/-- The `scale_factor` attribute of `sea_surface_temperature`. -/
def scale_factor : ℚ := 0.01

/-- The `add_offset` attribute of `sea_surface_temperature`. -/
def add_offset : ℚ := 273.14999999999998

/-- The scaling cell `scaled_sst = sst * 0.01 + 273.14999999999998`,
elementwise over the masked array; arithmetic on NaN yields NaN. -/
def scaled_sst (sst : List (List SciVal)) : List (List SciVal) :=
  sst.map (List.map (Option.map (fun x => x * 0.01 + 273.14999999999998)))

/-! ### The pydap client handle

Modelled from the spec: pydap's `open_url` and lazy `.data` access are part of
the external client library, not of this repository.  The model follows the
spec and the notebook's narrative: `open_url` downloads only metadata (names
and declared shapes), inserting placeholders instead of data; a slice of a
variable's `.data` materializes that variable's values in memory, and only
that variable's. -/

/-- Modelled from the spec: a variable of the remote dataset, with its
declared shape and the values held on the server (flattened). -/
structure RemoteVar where
  shape : List Nat
  remoteData : List ℚ

/-- Modelled from the spec: the remote dataset, a named family of variables. -/
structure RemoteDataset where
  vars : List (String × RemoteVar)

/-- Modelled from the spec: the client records which variables' data values
have been transferred into the program's memory. -/
structure ClientState where
  transferred : List String

/-- Modelled from the spec: `open_url` builds the dataset handle from the
metadata response alone; no variable's data values are transferred. -/
def open_url (d : RemoteDataset) : RemoteDataset × ClientState :=
  (d, ⟨[]⟩)

/-- Modelled from the spec: requesting `var.data[:]` materializes the values
of that variable as a plain in-memory array and transfers only them. -/
def sliceData (d : RemoteDataset) (st : ClientState) (name : String) :
    Option (List ℚ) × ClientState :=
  match d.vars.lookup name with
  | some v => (some v.remoteData, ⟨name :: st.transferred⟩)
  | none => (none, st)

/-! ### The order of the walkthrough's API calls

The pydap notebook's code cells, in source order, perform these steps. -/

/-- One step of the pydap walkthrough. -/
inductive NbStep : Type
  | shellSetup
  | importsStep
  | loginStep
  | setUrlStep
  | rewriteUrlStep
  | openUrlStep
  | inspectShapes
  | sliceStep (v : String)
  | squeezeStep
  | castStep
  | maskStep
  | attrsStep
  | scaleStep
  | plotStep
deriving DecidableEq

/-- The pydap notebook's cells in source order: setup script, imports,
`earthaccess.login`, `dataset_url`, `dap4_url`, `open_url`, shape inspection,
the four `.data[:]` slices, `np.squeeze`, `astype`, fill masking, attribute
display, unit scaling, and the two plotting cells. -/
def pydapTrace : List NbStep :=
  [.shellSetup, .importsStep, .loginStep, .setUrlStep, .rewriteUrlStep,
   .openUrlStep, .inspectShapes,
   .sliceStep "time", .sliceStep "lat", .sliceStep "lon",
   .sliceStep "sea_surface_temperature",
   .squeezeStep, .castStep, .maskStep, .attrsStep, .scaleStep,
   .plotStep, .plotStep]

/-- Whether a step is one of the array slices. -/
def isSliceStep : NbStep → Bool
  | .sliceStep _ => true
  | _ => false

/-! ### Error propagation

The notebooks contain no `try`/`except`: the cells run in order and any
exception raised by a library call aborts the run with that same error.  The
oracle records, per call site, whether the library call raises. -/

/-- The outcomes of the external library calls of the pydap notebook:
`none` means the call succeeds, `some e` that it raises error `e`.  The
masked SST data returned by the slice is carried for the pure tail. -/
structure Oracle (ε : Type) where
  loginExc : Option ε
  openExc : Option ε
  timeExc : Option ε
  latExc : Option ε
  lonExc : Option ε
  sstExc : Option ε
  plotExc : Option ε
  sstData : List (List SciVal)

/-- The pydap notebook run end to end: each library call either raises,
aborting the run with that error unchanged, or succeeds; the pure cells
(squeeze, mask, scale) never raise; the result is the scaled grid. -/
def runPydapNotebook {ε : Type} (o : Oracle ε) : Except ε (List (List SciVal)) :=
  match o.loginExc with
  | some e => .error e
  | none =>
    match o.openExc with
    | some e => .error e
    | none =>
      match o.timeExc with
      | some e => .error e
      | none =>
        match o.latExc with
        | some e => .error e
        | none =>
          match o.lonExc with
          | some e => .error e
          | none =>
            match o.sstExc with
            | some e => .error e
            | none =>
              match o.plotExc with
              | some e => .error e
              | none => .ok (scaled_sst (maskFillValues o.sstData))

/-! ### The configuration-file step of the login notebook

Modelled from the spec: the shell script `setup_dodsrc.sh` lives in the
repository outside the notebook and "automates this, making and/or editing
`~/.dodsrc` only if needed".  The login notebook's statements, in source
order, and the file-system paths each one writes. -/

/-- A statement of the login notebook: three Python cells and one shell cell. -/
inductive LoginStmt : Type
  | pyLogin
  | pyDefHelper
  | pyOpenBrowser
  | shellCmd (cmd : String)
deriving DecidableEq

/-- The login notebook's statements in source order: `earthaccess.login`,
the `!./setup_dodsrc.sh` shell cell, the `window_open` helper definition,
and the browser call that opens the EDL application page. -/
def loginTrace : List LoginStmt :=
  [.pyLogin, .shellCmd "./setup_dodsrc.sh", .pyDefHelper, .pyOpenBrowser]

/-- Whether a statement is a shell invocation. -/
def isShellStmt : LoginStmt → Bool
  | .shellCmd _ => true
  | _ => false

/-- Modelled from the spec: the file-system paths a statement writes.  The
Python cells call the login and display libraries and write no files of
their own; the shell cell runs `setup_dodsrc.sh`, which creates or edits
`~/.dodsrc`. -/
def pathsWritten : LoginStmt → List String
  | .shellCmd c => if c = "./setup_dodsrc.sh" then ["~/.dodsrc"] else []
  | _ => []

/-! ### Concrete instances used by the witnesses -/

/-- A small concrete dataset for the pydap-model witness. -/
def wDataset : RemoteDataset :=
  ⟨[("sea_surface_temperature", ⟨[1, 2, 2], [1513, 1345, -32768, -32768]⟩)]⟩

/-- A small concrete grid exercising the fill mask. -/
def wGrid : List (List SciVal) :=
  [[some (-32768), some 1513, none], [some (-32000), some 1345, some (-32001)]]

/-- A 2400 × 2400 grid for the squeeze witness. -/
def wBigGrid : List (List ℚ) := List.replicate 2400 (List.replicate 2400 0)

/-- A concrete oracle whose open_url call raises error `7`. -/
def wOracle : Oracle Nat :=
  ⟨none, some 7, none, none, none, none, none, [[some 1513]]⟩

/-- A concrete oracle all of whose calls succeed. -/
def wOracleOk : Oracle Nat :=
  ⟨none, none, none, none, none, none, none, [[some 1513, some (-32768)]]⟩

example : dap4_url ("https://host/path".data) = ("dap4://host/path".data) := by decide
example : dap4_url ("http://host/path".data) = ("dap4://host/path".data) := by decide
example : dap4_url ("dap4://host/path".data) = ("dap4://host/path".data) := by decide
example : dap4_url (dap4_url ("https://a/http://b".data)) ≠ dap4_url ("https://a/http://b".data) := by decide

/-- `s.find(pat) == 0` holds exactly when `pat` stands at the start of `s`. -/
theorem pyFind_eq_zero (s pat : List Char) : pyFind s pat = 0 ↔ leadsWith pat s = true := by
  cases s with
  | nil =>
    by_cases h : leadsWith pat [] = true
    · simp [pyFind, findSub, h]
    · simp [pyFind, findSub, h]
  | cons c t =>
    by_cases h : leadsWith pat (c :: t) = true
    · simp [pyFind, findSub, h]
    · cases hf : findSub pat t with
      | none => simp [pyFind, findSub, h, hf]
      | some n =>
        simp [pyFind, findSub, h, hf]
        omega

/-- `replaceFirst` realizes the spec's description: the first occurrence of
`old` is replaced by `new` and the remainder is unchanged. -/
theorem replaceFirst_eq_spec (old new s : List Char) :
    replaceFirst old new s = replaceFirstOccSpec s old new := by
  induction s with
  | nil =>
    by_cases h : leadsWith old [] = true
    · simp [replaceFirst, replaceFirstOccSpec, findSub, h]
    · simp [replaceFirst, replaceFirstOccSpec, findSub, h]
  | cons c t ih =>
    by_cases h : leadsWith old (c :: t) = true
    · simp [replaceFirst, replaceFirstOccSpec, findSub, h]
    · cases hf : findSub old t with
      | none =>
        simp [replaceFirst, replaceFirstOccSpec, findSub, h, hf] at ih ⊢
        exact ih
      | some i =>
        simp [replaceFirst, replaceFirstOccSpec, findSub, h, hf] at ih ⊢
        rw [ih]
        have harith : i + 1 + old.length = i + old.length + 1 := by omega
        simp [harith, List.drop_succ_cons]

/-- A string in which `http://` does not occur and which does not start with
`https` passes through the rewrite unchanged. -/
theorem dap4_url_fixed_of_no_http {v : List Char}
    (h1 : ¬ leadsWith ("https".data) v = true)
    (h2 : findSub ("http://".data) v = none) : dap4_url v = v := by
  rw [dap4_url, if_neg (fun hz => h1 ((pyFind_eq_zero v _).mp hz)), replaceFirst_eq_spec]
  simp [replaceFirstOccSpec, h2]

/-- A string satisfying `leadsWith (a :: pa)` starts with `a`. -/
theorem leadsWith_head {a : Char} {pa s : List Char} (h : leadsWith (a :: pa) s = true) :
    ∃ t, s = a :: t := by
  cases s with
  | nil => simp [leadsWith] at h
  | cons b t =>
    simp [leadsWith] at h
    exact ⟨t, by rw [h.1]⟩

/-- A URL that starts with `dap4://` does not start with `https`. -/
theorem dap4Start_not_https {u : List Char}
    (h : leadsWith ("dap4://".data) u = true) : ¬ leadsWith ("https".data) u = true := by
  intro hc
  have h' : leadsWith ('d' :: "ap4://".data) u = true := h
  obtain ⟨t, rfl⟩ := leadsWith_head h'
  have hc' : leadsWith ('h' :: "ttps".data) ('d' :: t) = true := hc
  simp [leadsWith] at hc'

/-- Positional access commutes with elementwise maps of a 2-D array. -/
theorem at2_map {α β : Type} (f : α → β) (g : List (List α)) (i j : Nat) :
    at2 (g.map (List.map f)) i j = Option.map f (at2 g i j) := by
  unfold at2
  rw [List.get?_map]
  cases hg : g.get? i with
  | none => rfl
  | some r => simp [List.get?_map]

/-- C1: the URL-construction step rewrites the protocol scheme to `dap4`:
for a URL beginning with `https` the result is the URL with only its first
occurrence of `https://` replaced by `dap4://`; for every other URL it is
the URL with only its first occurrence of `http://` replaced by `dap4://`;
in both cases the remainder of the URL is unchanged. -/
theorem c1_url_rewrite (u : List Char) :
    dap4_url u =
      if leadsWith ("https".data) u
      then replaceFirstOccSpec u ("https://".data) ("dap4://".data)
      else replaceFirstOccSpec u ("http://".data) ("dap4://".data) := by
  by_cases h : leadsWith ("https".data) u = true
  · rw [dap4_url, if_pos ((pyFind_eq_zero u _).mpr h), if_pos h, replaceFirst_eq_spec]
  · rw [dap4_url, if_neg (fun hz => h ((pyFind_eq_zero u _).mp hz)), if_neg h,
      replaceFirst_eq_spec]

/-- C7 counterexample: the rewrite is not idempotent; applied to the output
it produced for `https://a/http://b` it changes that output again. -/
theorem c7_counterexample :
    dap4_url (dap4_url ("https://a/http://b".data)) ≠
      dap4_url ("https://a/http://b".data) := by decide

/-- C7 (amended): applying the URL-construction step to its own output
returns that output unchanged whenever that output does not begin with
`https` and contains no `http://` substring; in particular, every URL that
already begins with `dap4://` and contains no `http://` substring is
returned exactly as given. -/
theorem c7_rewrite_idempotent (u : List Char) :
    (leadsWith ("https".data) (dap4_url u) = false →
      findSub ("http://".data) (dap4_url u) = none →
      dap4_url (dap4_url u) = dap4_url u) ∧
    (leadsWith ("dap4://".data) u = true →
      findSub ("http://".data) u = none →
      dap4_url u = u) := by
  constructor
  · intro h1 h2
    exact dap4_url_fixed_of_no_http (by simp [h1]) h2
  · intro h1 h2
    exact dap4_url_fixed_of_no_http (dap4Start_not_https h1) h2

/-- C7 witness: both amended statements at concrete URLs. -/
theorem c7_witness :
    dap4_url (dap4_url ("https://h/p".data)) = dap4_url ("https://h/p".data) ∧
    dap4_url ("dap4://h/p".data) = ("dap4://h/p".data) :=
  ⟨(c7_rewrite_idempotent ("https://h/p".data)).1 (by decide) (by decide),
   (c7_rewrite_idempotent ("dap4://h/p".data)).2 (by decide) (by decide)⟩

/-- C2: the unit-scaling step is the fixed linear transform
`0.01 * x + 273.14999999999998` applied to every element of the masked SST
array, NaN elements staying NaN, and no other coefficients are applied. -/
theorem c2_unit_scaling (sst : List (List SciVal)) (i j : Nat) :
    at2 (scaled_sst sst) i j =
      Option.map (Option.map (fun x => scale_factor * x + add_offset))
        (at2 sst i j) := by
  rw [scaled_sst, at2_map]
  have hfun : (Option.map (fun x : ℚ => x * 0.01 + 273.14999999999998)) =
      Option.map (fun x : ℚ => scale_factor * x + add_offset) := by
    funext v
    cases v with
    | none => rfl
    | some x =>
      simp [scale_factor, add_offset]
      ring
  rw [hfun]

/-- C3: opening the dataset transfers no data; a slice of a variable's
`.data` materializes exactly that variable's values as a plain in-memory
array whose size matches the declared shape, and transfers only that
variable. -/
theorem c3_lazy_access (d : RemoteDataset) (name : String) (v : RemoteVar)
    (hv : d.vars.lookup name = some v)
    (hlen : v.remoteData.length = v.shape.prod) :
    (open_url d).2.transferred = [] ∧
    (open_url d).1 = d ∧
    (sliceData (open_url d).1 (open_url d).2 name).1 = some v.remoteData ∧
    (sliceData (open_url d).1 (open_url d).2 name).2.transferred = [name] ∧
    ∃ arr, (sliceData (open_url d).1 (open_url d).2 name).1 = some arr ∧
      arr.length = v.shape.prod := by
  refine ⟨rfl, rfl, ?_, ?_, ?_⟩ <;> simp [open_url, sliceData, hv, hlen]

/-- C3 witness: the model at a concrete one-variable dataset. -/
theorem c3_witness :
    (sliceData (open_url wDataset).1 (open_url wDataset).2
      "sea_surface_temperature").2.transferred = ["sea_surface_temperature"] :=
  (c3_lazy_access wDataset "sea_surface_temperature"
    ⟨[1, 2, 2], [1513, 1345, -32768, -32768]⟩ rfl rfl).2.2.2.1

/-- C4: the walkthrough's API calls happen in a fixed sequential order:
login before `open_url`, `open_url` before every slice, every slice before
the unit scaling, and the scaling before every plotting call. -/
theorem c4_sequential_order (i j : Fin pydapTrace.length) :
    (pydapTrace.get i = .loginStep → pydapTrace.get j = .openUrlStep → i < j) ∧
    (pydapTrace.get i = .openUrlStep → isSliceStep (pydapTrace.get j) = true → i < j) ∧
    (isSliceStep (pydapTrace.get i) = true → pydapTrace.get j = .scaleStep → i < j) ∧
    (pydapTrace.get i = .scaleStep → pydapTrace.get j = .plotStep → i < j) := by
  revert i j
  decide

/-- C4 witness: login is cell 2, `open_url` cell 5, and 2 < 5. -/
theorem c4_witness :
    pydapTrace.get ⟨2, by decide⟩ = .loginStep ∧
    (⟨2, by decide⟩ : Fin pydapTrace.length) < ⟨5, by decide⟩ :=
  ⟨by decide, (c4_sequential_order ⟨2, by decide⟩ ⟨5, by decide⟩).1 (by decide) (by decide)⟩

/-- C5: no cell catches or retries; an error raised at any library call
aborts the run and propagates unchanged as the run's result, later steps
never executing, and when every call succeeds the run returns the scaled
grid. -/
theorem c5_error_propagation {ε : Type} (o : Oracle ε) (e : ε) :
    (o.loginExc = some e → runPydapNotebook o = .error e) ∧
    (o.loginExc = none → o.openExc = some e → runPydapNotebook o = .error e) ∧
    (o.loginExc = none → o.openExc = none → o.timeExc = some e →
      runPydapNotebook o = .error e) ∧
    (o.loginExc = none → o.openExc = none → o.timeExc = none →
      o.latExc = some e → runPydapNotebook o = .error e) ∧
    (o.loginExc = none → o.openExc = none → o.timeExc = none →
      o.latExc = none → o.lonExc = some e → runPydapNotebook o = .error e) ∧
    (o.loginExc = none → o.openExc = none → o.timeExc = none →
      o.latExc = none → o.lonExc = none → o.sstExc = some e →
      runPydapNotebook o = .error e) ∧
    (o.loginExc = none → o.openExc = none → o.timeExc = none →
      o.latExc = none → o.lonExc = none → o.sstExc = none →
      o.plotExc = some e → runPydapNotebook o = .error e) ∧
    (o.loginExc = none → o.openExc = none → o.timeExc = none →
      o.latExc = none → o.lonExc = none → o.sstExc = none →
      o.plotExc = none →
      runPydapNotebook o = .ok (scaled_sst (maskFillValues o.sstData))) := by
  refine ⟨?_, ?_, ?_, ?_, ?_, ?_, ?_, ?_⟩ <;> intros <;> simp_all [runPydapNotebook]

/-- C5 witness: a failing `open_url` yields that error; an all-success run
yields the scaled grid. -/
theorem c5_witness :
    runPydapNotebook wOracle = .error 7 ∧
    runPydapNotebook wOracleOk = .ok (scaled_sst (maskFillValues wOracleOk.sstData)) :=
  ⟨(c5_error_propagation wOracle 7).2.1 rfl rfl,
   (c5_error_propagation wOracleOk 7).2.2.2.2.2.2.2 rfl rfl rfl rfl rfl rfl rfl⟩

/-- C6: the walkthrough invokes the shell script `setup_dodsrc.sh`, the one
statement that writes `~/.dodsrc`; no Python statement of the notebook
writes any file. -/
theorem c6_dotfile_effect :
    (LoginStmt.shellCmd "./setup_dodsrc.sh") ∈ loginTrace ∧
    (∀ s ∈ loginTrace, "~/.dodsrc" ∈ pathsWritten s →
      s = .shellCmd "./setup_dodsrc.sh") ∧
    (∀ s ∈ loginTrace, isShellStmt s = false → pathsWritten s = []) := by
  refine ⟨by decide, by decide, by decide⟩

/-- C6 witness: the login cell, a Python statement, writes no path. -/
theorem c6_witness : pathsWritten .pyLogin = [] :=
  c6_dotfile_effect.2.2 .pyLogin (by decide) (by decide)

/-- C8: after `sst[sst < -32000] = np.nan`, elements strictly below `-32000`
(in particular the fill value `-32768`) are NaN, elements at or above
`-32000` are unchanged, the shape is unchanged, and every non-NaN element of
the result is at least `-32000`. -/
theorem c8_fill_masking (g : List (List SciVal)) (i j : Nat) :
    (∀ x : ℚ, at2 g i j = some (some x) → x < -32000 →
      at2 (maskFillValues g) i j = some none) ∧
    (∀ x : ℚ, at2 g i j = some (some x) → -32000 ≤ x →
      at2 (maskFillValues g) i j = some (some x)) ∧
    (maskFillValues g).length = g.length ∧
    (∀ r, g.get? i = some r → ∃ r2, (maskFillValues g).get? i = some r2 ∧
      r2.length = r.length) ∧
    (∀ x : ℚ, at2 (maskFillValues g) i j = some (some x) → -32000 ≤ x) := by
  refine ⟨?_, ?_, ?_, ?_, ?_⟩
  · intro x hx hlt
    rw [maskFillValues, at2_map, hx]
    simp [maskElem, hlt]
  · intro x hx hge
    rw [maskFillValues, at2_map, hx]
    simp [maskElem, not_lt.mpr hge]
  · simp [maskFillValues]
  · intro r hr
    refine ⟨r.map maskElem, ?_, by simp⟩
    rw [maskFillValues, List.get?_map, hr]
    rfl
  · intro x hx
    rw [maskFillValues, at2_map] at hx
    cases hv : at2 g i j with
    | none => rw [hv] at hx; simp at hx
    | some v =>
      rw [hv] at hx
      cases v with
      | none => simp [maskElem] at hx
      | some y =>
        by_cases hy : y < -32000
        · simp [maskElem, hy] at hx
        · simp [maskElem, hy] at hx
          exact hx ▸ not_lt.mp hy

/-- C8 witness: the fill value becomes NaN, in-range values survive. -/
theorem c8_witness :
    at2 (maskFillValues wGrid) 0 0 = some none ∧
    at2 (maskFillValues wGrid) 0 1 = some (some 1513) ∧
    at2 (maskFillValues wGrid) 1 0 = some (some (-32000)) :=
  ⟨(c8_fill_masking wGrid 0 0).1 (-32768) (by decide) (by decide),
   (c8_fill_masking wGrid 0 1).2.1 1513 (by decide) (by decide),
   (c8_fill_masking wGrid 1 0).2.1 (-32000) (by decide) (by decide)⟩

/-- C9: squeezing the `(1, 2400, 2400)` SST array gives a `(2400, 2400)`
array whose `[i][j]` element is the original `[0][i][j]` element, the total
element count unchanged. -/
theorem c9_squeeze (g : List (List ℚ)) (h : isShape2 2400 2400 g) :
    isShape2 2400 2400 (npSqueeze0 [g]) ∧
    (∀ i j, at2 (npSqueeze0 [g]) i j = at3 [g] 0 i j) ∧
    count2 (npSqueeze0 [g]) = count3 [g] := by
  refine ⟨h, fun i j => rfl, ?_⟩
  simp [npSqueeze0, count3, count2]

/-- C9 witness: the squeeze of a concrete 1 × 2400 × 2400 array. -/
theorem c9_witness : isShape2 2400 2400 (npSqueeze0 [wBigGrid]) := by
  refine (c9_squeeze wBigGrid ⟨?_, ?_⟩).1
  · rw [wBigGrid, List.length_replicate]
  · intro r hr
    rw [wBigGrid] at hr
    rw [List.eq_of_mem_replicate hr, List.length_replicate]

end NasaTutorials
